import Mathlib

/-!
Shallow embedding of the notification dispatch engine
(apps/notifications/{models,services,channels,tasks}.py and core/patterns).

Conventions: Django model instances become Lean structures; timestamps are
integers (seconds); `timezone.now()` is passed in explicitly as a `now`
argument; `save()` is the identity (the structure update itself is the
persisted state); raised exceptions become `Option`/`Except` results or
explicit outcome values.
-/

namespace NotifSys

/-- Notification.STATUS_CHOICES from apps/notifications/models.py. -/
inductive Status
  | pending
  | queued
  | sent
  | delivered
  | failed
  | retrying
deriving DecidableEq, Repr

/-- The Notification model row (apps/notifications/models.py, class Notification).
Field defaults mirror the model's declared defaults (`status='pending'`,
`retry_count=0`, `max_retries=3`, `priority='normal'`). The template foreign key
is represented by the template's name; customer/order are opaque correlation
ids. -/
structure Notification where
  template_name : String := ""
  recipient : String := ""
  subject : String := ""
  message : String := ""
  status : Status := .pending
  priority : String := "normal"
  context_data : List (String × String) := []
  error_message : String := ""
  retry_count : Nat := 0
  max_retries : Nat := 3
  scheduled_at : Int := 0
  sent_at : Option Int := none
  delivered_at : Option Int := none
  customer : Option Nat := none
  order : Option Nat := none
deriving DecidableEq, Repr

/-- `Notification.can_retry` (models.py line 91):
`return self.retry_count < self.max_retries and self.status == 'failed'`. -/
def can_retry (n : Notification) : Bool :=
  decide (n.retry_count < n.max_retries) && decide (n.status = .failed)

/-- `Notification.mark_as_sent` (models.py line 95). -/
def mark_as_sent (now : Int) (n : Notification) : Notification :=
  { n with status := .sent, sent_at := some now }

/-- `Notification.mark_as_delivered` (models.py line 101). -/
def mark_as_delivered (now : Int) (n : Notification) : Notification :=
  { n with status := .delivered, delivered_at := some now }

/-- `Notification.mark_as_failed` (models.py line 107). The Python guard
`if error_message:` is false for both `None` and the empty string, in which
case the stored error message is left as it was. -/
def mark_as_failed (err : Option String) (n : Notification) : Notification :=
  { n with status := .failed,
           error_message :=
             match err with
             | some s => if s = "" then n.error_message else s
             | none => n.error_message }

/-- `Notification.increment_retry` (models.py line 114). -/
def increment_retry (n : Notification) : Notification :=
  { n with retry_count := n.retry_count + 1, status := .retrying }

/-- `CircuitBreakerState` (core/patterns/__init__.py line 51). -/
inductive CBState
  | CLOSED
  | OPEN
  | HALF_OPEN
deriving DecidableEq, Repr

/-- `CircuitBreaker.__init__` (core/patterns/__init__.py line 61): the mutable
state of one breaker. Defaults are the constructor defaults. -/
structure CircuitBreaker where
  failure_threshold : Nat := 5
  recovery_timeout : Int := 60
  failure_count : Nat := 0
  last_failure_time : Option Int := none
  state : CBState := .CLOSED
deriving DecidableEq, Repr

/-- `CircuitBreaker._should_attempt_reset` (patterns line 84):
`(time.time() - self.last_failure_time) >= self.recovery_timeout`.
`last_failure_time` is always set whenever the state is `OPEN` (OPEN is only
entered by `_on_failure`, which stamps it); the `none` branch is unreachable
there and modelled as `false`. -/
def should_attempt_reset (cb : CircuitBreaker) (now : Int) : Bool :=
  match cb.last_failure_time with
  | some t => decide (cb.recovery_timeout ≤ now - t)
  | none => false

/-- `CircuitBreaker._on_success` (patterns line 89). -/
def on_success (cb : CircuitBreaker) : CircuitBreaker :=
  { cb with failure_count := 0, state := .CLOSED }

/-- `CircuitBreaker._on_failure` (patterns line 94). -/
def on_failure (now : Int) (cb : CircuitBreaker) : CircuitBreaker :=
  let fc := cb.failure_count + 1
  { cb with failure_count := fc,
            last_failure_time := some now,
            state := if cb.failure_threshold ≤ fc then .OPEN else cb.state }

/-- Outcome of one `CircuitBreaker.call`: the wrapped function's value, its
re-raised exception, or the `Circuit breaker is OPEN` rejection. -/
inductive CallOutcome (α : Type)
  | ok (a : α)
  | err (e : String)
  | circuitOpen
deriving DecidableEq, Repr

/-- `CircuitBreaker.call` (patterns line 68). The wrapped function's behaviour
at this invocation is passed in as `func : Except String α` (normal return or
raised exception). Returns the breaker after the call, the outcome, and
whether the underlying function was invoked. -/
def CircuitBreaker.call (cb : CircuitBreaker) (now : Int) (func : Except String α) :
    CircuitBreaker × CallOutcome α × Bool :=
  if cb.state = .OPEN ∧ ¬ should_attempt_reset cb now then
    (cb, .circuitOpen, false)
  else
    let cb1 := if cb.state = .OPEN then { cb with state := .HALF_OPEN } else cb
    match func with
    | .ok a => (on_success cb1, .ok a, true)
    | .error e => (on_failure now cb1, .err e, true)

/-- A sequence of calls whose underlying function fails every time, made at the
given timestamps. -/
def failCalls (cb : CircuitBreaker) (ts : List Int) : CircuitBreaker :=
  ts.foldl (fun c t => (c.call t (Except.error "boom" : Except String Unit)).1) cb

/-- A segment of a compiled template: literal character or variable tag. -/
inductive Seg
  | lit (c : Char)
  | var (name : String)
deriving DecidableEq, Repr

/-- A rendering context: string-keyed map of text values. -/
abbrev Ctx := List (String × String)

/-- Characters allowed in a variable name (identifier characters). -/
def isIdentChar (c : Char) : Bool :=
  c.isAlphanum || c = '_'

/-- Modelled from the spec: the template engine used by
`NotificationService._render_template` is Django's (`django.template.Template`),
which is outside this repository (and the project's `config/settings/base.py`
holding the TEMPLATES options is not under src/). Per the spec the renderer
does straight variable substitution only. `readVar` consumes one variable tag
after an opening `\x7b\x7b`: optional spaces, an identifier, optional spaces and
the closing `\x7d\x7d`; anything else is a template syntax error (`none`). -/
def readVar (l : List Char) : Option (String × List Char) :=
  let l1 := l.dropWhile (· = ' ')
  let name := l1.takeWhile isIdentChar
  let l2 := l1.dropWhile isIdentChar
  if name.isEmpty then none
  else
    match l2.dropWhile (· = ' ') with
    | '\x7d' :: '\x7d' :: rest => some (String.mk name, rest)
    | _ => none

/-- Modelled from the spec: after one opening brace, a tag opens only if a
second opening brace follows, and then a well-formed variable tag must
complete; returns the variable name and the remainder after the tag. -/
def openTag : List Char → Option (String × List Char)
  | c2 :: rest2 => if c2 = '\x7b' then readVar rest2 else none
  | [] => none

/-- Modelled from the spec: lexing/compiling a template string. A literal
brace that does not open or close a well-formed variable tag is a template
syntax error; every other character is literal text. Structural recursion on
an explicit fuel bound (each step consumes at least one character, so
`length + 1` fuel always suffices). -/
def lexTF : Nat → List Char → Option (List Seg)
  | 0, _ => none
  | _ + 1, [] => some []
  | fuel + 1, c :: rest =>
    if c = '\x7b' then
      match openTag rest with
      | some (n, rest3) => (lexTF fuel rest3).map (Seg.var n :: ·)
      | none => none
    else if c = '\x7d' then none
    else (lexTF fuel rest).map (Seg.lit c :: ·)

/-- Modelled from the spec: compiling a template, with sufficient fuel. -/
def lexT (l : List Char) : Option (List Seg) :=
  lexTF (l.length + 1) l

/-- Modelled from the spec: resolving one variable against the context; a
missing variable renders as empty text. -/
def resolveVar (ctx : Ctx) (v : String) : String :=
  match ctx.lookup v with
  | some s => s
  | none => ""

/-- Modelled from the spec: rendering a compiled template against a context. -/
def renderSegs (ctx : Ctx) : List Seg → List Char
  | [] => []
  | .lit c :: rest => c :: renderSegs ctx rest
  | .var v :: rest => (resolveVar ctx v).data ++ renderSegs ctx rest

/-- Modelled from the spec: the engine's render — compile, then substitute;
compilation failure is the engine raising. -/
def engineRender (templateString : String) (ctx : Ctx) : Except Unit String :=
  match lexT templateString.data with
  | some segs => .ok (String.mk (renderSegs ctx segs))
  | none => .error ()

/-- `NotificationService._render_template` (apps/notifications/services.py
line 129): empty template renders to `""`; any rendering error degrades to
returning the original unrendered template string. -/
def render_template (templateString : String) (ctx : Ctx) : String :=
  if templateString = "" then ""
  else
    match engineRender templateString ctx with
    | .ok s => s
    | .error _ => templateString

/-- A notification channel as the dispatch service uses it: its
`validate_recipient` capability (core/patterns NotificationChannel). The
network-facing `send` is irrelevant to the claims about creation/validation. -/
structure ChannelImpl where
  validate_recipient : String → Bool

/-- The factory's registry `NotificationChannelFactory._channels`
(core/patterns/__init__.py line 28): a mapping from channel-type string to the
registered channel class (modelled as the channel capability itself, since
`create_channel` instantiates the stored class with no arguments). -/
abbrev Registry := List (String × ChannelImpl)

/-- Python `str.lower()` (restricted to ASCII case mapping): lowercase every
character. -/
def pyLower (s : String) : String :=
  String.mk (s.data.map Char.toLower)

/-- `NotificationChannelFactory.register_channel` (patterns line 30):
`cls._channels[channel_type.lower()] = channel_class`. Modelled as a prepend;
`List.lookup` returns the first (most recent) binding, matching dict
overwrite. -/
def register_channel (m : Registry) (channel_type : String) (c : ChannelImpl) : Registry :=
  (pyLower channel_type, c) :: m

/-- `NotificationChannelFactory.create_channel` (patterns line 36): look up
`channel_type.lower()`; unknown channel yields `None`, never an exception. -/
def create_channel (m : Registry) (channel_type : String) : Option ChannelImpl :=
  m.lookup (pyLower channel_type)

/-- True when the first character of `s` is `c` — Python `s.startswith(c)` for
a single-character prefix. -/
def headIs (c : Char) (s : String) : Bool :=
  match s.data with
  | [] => false
  | a :: _ => a = c

/-- Python `str.isdigit`: non-empty and every character a digit (restricted to
ASCII digits in this model). -/
def pyIsdigit (s : String) : Bool :=
  !s.data.isEmpty && s.data.all Char.isDigit

/-- `TelegramChannel.validate_recipient` (apps/notifications/channels.py
line 69): an empty recipient is valid iff a default chat id is configured
(Python truthiness of the configured string); otherwise
`(recipient.startswith('@') and len(recipient) > 1) or recipient.isdigit()
or recipient.startswith('-')`. -/
def telegram_validate_recipient (default_chat_id : String) (recipient : String) : Bool :=
  if recipient = "" then !(default_chat_id = "")
  else
    (headIs '@' recipient && decide (recipient.data.length > 1))
      || pyIsdigit recipient || headIs '-' recipient

/-- The claim's characterization of a valid chat-bot recipient, written from
the spec's words: a non-empty numeric ID, a signed numeric ID (a minus sign
followed by digits), or an `@handle` with at least one character after the
`@`; empty iff a default destination is configured. For comparison with
`telegram_validate_recipient` only. -/
def specTelegramValid (hasDefault : Bool) (r : String) : Bool :=
  if r = "" then hasDefault
  else
    pyIsdigit r
      || (match r.data with
          | '-' :: rest => !rest.isEmpty && rest.all Char.isDigit
          | _ => false)
      || (match r.data with
          | '@' :: rest => !rest.isEmpty
          | _ => false)

/-- A NotificationTemplate row (apps/notifications/models.py,
class NotificationTemplate). -/
structure TemplateRec where
  name : String
  channel : String
  subject_template : String := ""
  body_template : String
  is_active : Bool := true
deriving DecidableEq, Repr

/-- `NotificationService.create_notification` (services.py line 20).
`templates` is the template table (`objects.get(name=..., is_active=True)`),
`registry` the channel factory's registry. Returns `none` where the source
returns `None` (template not found / unknown channel / invalid recipient). -/
def create_notification (templates : List TemplateRec) (registry : Registry)
    (template_name recipient : String) (customer order : Option Nat)
    (context : Ctx) (priority : String) (now : Int) (scheduled_at : Option Int) :
    Option Notification :=
  match templates.find? (fun t => t.name = template_name && t.is_active) with
  | none => none
  | some template =>
    match create_channel registry template.channel with
    | none => none
    | some channel =>
      if !channel.validate_recipient recipient then none
      else
        some { template_name := template.name,
               recipient := recipient,
               subject := render_template template.subject_template context,
               message := render_template template.body_template context,
               status := .pending,
               priority := priority,
               context_data := context,
               retry_count := 0,
               max_retries := 3,
               scheduled_at := scheduled_at.getD now,
               customer := customer,
               order := order }

/-- One entry of the `recipients` list taken by
`NotificationService.send_bulk_notifications`. -/
structure RecipientData where
  recipient : String := ""
  customer : Option Nat := none
  order : Option Nat := none
  context : Ctx := []
deriving Repr

/-- `{**global, **perRecipient}`: dict merge where per-recipient keys win.
Modelled as an association list whose `List.lookup` tries the per-recipient
bindings first. -/
def mergeCtx (globalCtx perRecipient : Ctx) : Ctx :=
  perRecipient ++ globalCtx

/-- `NotificationService.send_bulk_notifications` (services.py line 95): loop
over the recipients, merge contexts, create, and append only successful
creations. -/
def send_bulk_notifications (templates : List TemplateRec) (registry : Registry)
    (template_name : String) (recipients : List RecipientData)
    (context : Ctx) (priority : String) (now : Int) : List Notification :=
  recipients.foldl
    (fun acc rd =>
      match create_notification templates registry template_name rd.recipient
          rd.customer rd.order (mergeCtx context rd.context) priority now none with
      | some n => acc ++ [n]
      | none => acc)
    []

/-- The failure branch of `send_notification_task` (apps/notifications/tasks.py
lines 34-43): `mark_as_failed`, then, if `can_retry()`, `increment_retry` and
re-schedule with countdown `60 * (2 ** notification.retry_count)` computed
after the increment. Returns the notification as persisted and the countdown
of the scheduled retry (`none` when no retry is scheduled). -/
def send_task_on_failure (n : Notification) (err : String) : Notification × Option Nat :=
  let n1 := mark_as_failed (some err) n
  if can_retry n1 then
    let n2 := increment_retry n1
    (n2, some (60 * 2 ^ n2.retry_count))
  else (n1, none)

/-- A NotificationLog row as far as the cleanup sweep observes it: its owning
notification (by id) and its creation time. -/
structure LogRec where
  notification : Nat
  created_at : Int
deriving DecidableEq, Repr

/-- The persisted tables the cleanup sweep touches: notification rows keyed by
id, and their logs. -/
structure Store where
  notifications : List (Nat × Notification)
  logs : List LogRec
deriving DecidableEq, Repr

/-- The cutoff predicate of the first delete in `cleanup_old_notifications`:
`status='delivered', delivered_at__lt=cutoff` (SQL `NULL < x` is not true). -/
def doomedNotif (cutoff : Int) (n : Notification) : Bool :=
  n.status = .delivered &&
    match n.delivered_at with
    | some d => decide (d < cutoff)
    | none => false

/-- `cleanup_old_notifications` (tasks.py line 121): `cutoff = now - 30 days`;
delete delivered notifications older than the cutoff (cascading to their
logs — Django's `delete()` count includes the cascaded log rows), then delete
every remaining log older than the cutoff. Returns the new store,
`deleted_notifications` and `deleted_logs`. -/
def cleanup_old_notifications (now : Int) (s : Store) : Store × Nat × Nat :=
  let cutoff := now - 30 * 86400
  let doomedIds := (s.notifications.filter (fun p => doomedNotif cutoff p.2)).map (·.1)
  let cascCount := (s.logs.filter (fun l => l.notification ∈ doomedIds)).length
  let deletedNotifCount :=
    (s.notifications.filter (fun p => doomedNotif cutoff p.2)).length + cascCount
  let s1 : Store :=
    { notifications := s.notifications.filter (fun p => !doomedNotif cutoff p.2),
      logs := s.logs.filter (fun l => !(l.notification ∈ doomedIds : Bool)) }
  let deletedLogCount := (s1.logs.filter (fun l => decide (l.created_at < cutoff))).length
  let s2 : Store :=
    { s1 with logs := s1.logs.filter (fun l => !decide (l.created_at < cutoff)) }
  (s2, deletedNotifCount, deletedLogCount)

/-- The lifecycle transitions applied to a persisted notification after
creation, as the code invokes them: the queueing assignment in
`send_notification_task` (tasks.py line 25), the `mark_as_*` methods, and the
retry step of the send task, which calls `increment_retry` only after
`can_retry()` returns true (tasks.py lines 39-40 and 58-59). -/
inductive Op
  | enqueue
  | markSent (now : Int)
  | markDelivered (now : Int)
  | markFailed (err : Option String)
  | taskRetry
deriving Repr

/-- Apply one transition as the code does. -/
def applyOp (n : Notification) : Op → Notification
  | .enqueue => { n with status := .queued }
  | .markSent now => mark_as_sent now n
  | .markDelivered now => mark_as_delivered now n
  | .markFailed err => mark_as_failed err n
  | .taskRetry => if can_retry n then increment_retry n else n

/-- Apply a sequence of transitions. -/
def runOps (n : Notification) (ops : List Op) : Notification :=
  ops.foldl applyOp n

/-- Concrete fixtures used to evaluate the theorems on closed inputs: a
telegram channel with no configured default destination, -/
def chW : ChannelImpl :=
  { validate_recipient := telegram_validate_recipient "" }

/-- a registry holding it, -/
def regW : Registry := register_channel [] "telegram" chW

/-- an active template bound to it, -/
def tplW : TemplateRec :=
  { name := "welcome", channel := "telegram", subject_template := "",
    body_template := "Hi" }

/-- and a batch of five recipients of which exactly one (the empty string,
with no default chat id configured) is invalid. -/
def recipientsW : List RecipientData :=
  [{ recipient := "123" }, { recipient := "@alice" }, { recipient := "-500" },
   { recipient := "" }, { recipient := "77" }]

/-- Brace-freedom of a character list: it contains no opening and no closing
brace character, hence in particular no placeholder marker. -/
def braceFreeL (l : List Char) : Prop :=
  ∀ c ∈ l, ¬ c = '\x7b' ∧ ¬ c = '\x7d'

instance (l : List Char) : Decidable (braceFreeL l) := by
  unfold braceFreeL
  infer_instance

end NotifSys

namespace NotifSys

/-- C1, counterexample: the code has no `LifecycleError` and no transition
guard. On a fresh notification in status `pending` (not `sent`),
`mark_as_delivered` silently coerces the status to `delivered` instead of
failing; and on the resulting `delivered` record, `mark_as_failed` and
`increment_retry` still mutate status and retry count. -/
theorem C1_counterexample :
    ({} : Notification).status = .pending ∧
    (mark_as_delivered 7 {}).status = .delivered ∧
    (mark_as_failed (some "boom") (mark_as_delivered 7 {})).status = .failed ∧
    (mark_as_sent 9 (mark_as_delivered 7 {})).status = .sent ∧
    (increment_retry (mark_as_delivered 7 {})).retry_count = 1 := by
  decide

/-- C1, amended: the lifecycle methods of `Notification` apply their updates
unconditionally — `mark_as_delivered` sets status `delivered` and stamps
`delivered_at` from any prior status without raising, and a record in the
status `delivered` is not immutable: `mark_as_failed`, `mark_as_sent` and
`increment_retry` still perform their transitions on it. No `LifecycleError`
exists in the code. -/
theorem C1_amended (n : Notification) (now later : Int) (e : String) :
    (mark_as_delivered now n).status = .delivered ∧
    (mark_as_delivered now n).delivered_at = some now ∧
    (mark_as_failed (some e) (mark_as_delivered now n)).status = .failed ∧
    (mark_as_sent later (mark_as_delivered now n)).status = .sent ∧
    (mark_as_sent later (mark_as_delivered now n)).sent_at = some later ∧
    (increment_retry (mark_as_delivered now n)).status = .retrying ∧
    (increment_retry (mark_as_delivered now n)).retry_count = n.retry_count + 1 := by
  simp [mark_as_delivered, mark_as_failed, mark_as_sent, increment_retry]

/-- Helper: `List.lookup` misses exactly when no key of the list matches. -/
theorem lookup_eq_none_of_no_key {β : Type} (m : List (String × β)) (v : String)
    (h : ∀ k x, (k, x) ∈ m → ¬ k = v) : m.lookup v = none := by
  induction m with
  | nil => rfl
  | cons p m ih =>
    have hp : ¬ p.1 = v := h p.1 p.2 (by simp)
    have hne : (v == p.1) = false := beq_eq_false_iff_ne.mpr fun hvp => hp hvp.symm
    simp only [List.lookup, hne]
    exact ih fun k x hk => h k x (List.mem_cons_of_mem _ hk)

/-- C10: channel registry resolution is case-insensitive. After
`register_channel name C`, resolving any name that agrees with `name` up to
case (i.e. whose lowercasing equals `name`'s) returns the registered channel;
and resolving a name matching no registered key (all keys being stored
lowercased) returns `none` — the factory's "unknown channel" result — rather
than raising. -/
theorem C10_registry_case_insensitive (m : Registry) (name v : String) (c : ChannelImpl) :
    (pyLower v = pyLower name →
      create_channel (register_channel m name c) v = some c) ∧
    ((∀ k x, (k, x) ∈ m → ¬ k = pyLower v) → create_channel m v = none) := by
  constructor
  · intro h
    simp [create_channel, register_channel, List.lookup, h]
  · intro h
    exact lookup_eq_none_of_no_key m (pyLower v) h

/-- C10, witness: registering under `"Telegram"` and resolving `"TELEGRAM"`
returns the registered channel; resolving the never-registered `"email"`
returns `none`. -/
theorem C10_registry_witness :
    pyLower "TELEGRAM" = pyLower "Telegram" ∧
    create_channel (register_channel [] "Telegram" chW) "TELEGRAM" = some chW ∧
    create_channel [] "email" = none :=
  ⟨by decide,
   (C10_registry_case_insensitive [] "Telegram" "TELEGRAM" chW).1 (by decide),
   (C10_registry_case_insensitive [] "anything" "email" chW).2 (by simp)⟩

/-- Helper: from `CLOSED`, a run of consecutive failing calls that exactly
reaches the threshold trips the breaker to `OPEN`, with the failure count at
the threshold and the last failure time stamped by the last call; the
configuration fields are untouched. -/
theorem failCalls_trips (ts : List Int) :
    ∀ cb : CircuitBreaker, cb.state = .CLOSED →
      cb.failure_count + ts.length = cb.failure_threshold → ts ≠ [] →
      (failCalls cb ts).state = .OPEN ∧
      (failCalls cb ts).failure_count = cb.failure_threshold ∧
      (failCalls cb ts).last_failure_time = ts.getLast? ∧
      (failCalls cb ts).failure_threshold = cb.failure_threshold ∧
      (failCalls cb ts).recovery_timeout = cb.recovery_timeout := by
  induction ts with
  | nil => intro cb _ _ hne; exact absurd rfl hne
  | cons t ts ih =>
    intro cb hs hcount _
    have hstep : failCalls cb (t :: ts) = failCalls (on_failure t cb) ts := by
      simp [failCalls, CircuitBreaker.call, hs]
    cases ts with
    | nil =>
      have hth : cb.failure_threshold ≤ cb.failure_count + 1 := by
        simp at hcount; omega
      rw [hstep]
      simp [failCalls, on_failure, hth]
      simp at hcount
      omega
    | cons t2 ts2 =>
      have hlt : ¬ cb.failure_threshold ≤ cb.failure_count + 1 := by
        simp at hcount; omega
      have hcb1 : (on_failure t cb).state = .CLOSED := by
        simp [on_failure, hlt, hs]
      have hcb1c : (on_failure t cb).failure_count = cb.failure_count + 1 := by
        simp [on_failure]
      have hcb1th : (on_failure t cb).failure_threshold = cb.failure_threshold := by
        simp [on_failure]
      have hcb1rt : (on_failure t cb).recovery_timeout = cb.recovery_timeout := by
        simp [on_failure]
      have := ih (on_failure t cb) hcb1
        (by rw [hcb1c, hcb1th]; simp at hcount ⊢; omega) (by simp)
      rw [hstep]
      refine ⟨this.1, ?_, ?_, ?_, ?_⟩
      · rw [this.2.1, hcb1th]
      · rw [this.2.2.1]; rfl
      · rw [this.2.2.2.1, hcb1th]
      · rw [this.2.2.2.2, hcb1rt]

/-- C2: starting from a fresh breaker with threshold `th ≥ 1`, after `th`
consecutive failed calls the state is `OPEN`; a next call made strictly before
`recovery_timeout` seconds have elapsed since `last_failure_time` is rejected
with the circuit-open outcome and the underlying function is not invoked;
a call made once the timeout has elapsed behaves exactly as a call on the
breaker moved to `HALF_OPEN`, invokes the underlying function, and the
breaker's next state is decided by that single invocation: `CLOSED` (count
reset) on success, `OPEN` (failure restamped) on failure. -/
theorem C2_circuit_breaker (th : Nat) (timeout : Int) (ts : List Int)
    (now : Int) (f : Except String Unit)
    (hth : 1 ≤ th) (hlen : ts.length = th) :
    (failCalls { failure_threshold := th, recovery_timeout := timeout } ts).state
      = .OPEN ∧
    (∀ t, (failCalls { failure_threshold := th, recovery_timeout := timeout }
        ts).last_failure_time = some t →
      (let cb := failCalls { failure_threshold := th, recovery_timeout := timeout } ts
       (now - t < timeout → cb.call now f = (cb, .circuitOpen, false)) ∧
       (timeout ≤ now - t →
         cb.call now f = ({ cb with state := .HALF_OPEN }).call now f ∧
         (cb.call now f).2.2 = true ∧
         (∀ a, f = .ok a → (cb.call now f).1.state = .CLOSED ∧
             (cb.call now f).1.failure_count = 0) ∧
         (∀ e, f = .error e → (cb.call now f).1.state = .OPEN ∧
             (cb.call now f).1.last_failure_time = some now)))) := by
  have hne : ts ≠ [] := by
    intro h; rw [h] at hlen; simp at hlen; omega
  have h0 := failCalls_trips ts { failure_threshold := th, recovery_timeout := timeout }
    rfl (by simpa using hlen) hne
  set cb := failCalls { failure_threshold := th, recovery_timeout := timeout } ts with hcb
  obtain ⟨hs, hfc, _, hft, hrt⟩ := h0
  refine ⟨hs, fun t hlast => ⟨?_, ?_⟩⟩
  · intro hlt
    have hreset : should_attempt_reset cb now = false := by
      simp [should_attempt_reset, hlast, hrt]
      omega
    cases f <;> simp [CircuitBreaker.call, hs, hreset]
  · intro hge
    have hreset : should_attempt_reset cb now = true := by
      simp [should_attempt_reset, hlast, hrt]; omega
    have hth1 : cb.failure_threshold ≤ cb.failure_count + 1 := by
      rw [hfc, hft]
      omega
    refine ⟨?_, ?_, ?_, ?_⟩
    · cases f <;> simp [CircuitBreaker.call, hs, hreset]
    · cases f <;> simp [CircuitBreaker.call, hs, hreset]
    · intro a hf; subst hf
      simp [CircuitBreaker.call, hs, hreset, on_success]
    · intro e hf; subst hf
      simp [CircuitBreaker.call, hs, hreset, on_failure, hth1]

/-- C2, witness: threshold 2, timeout 5, two failing calls at times 0 and 1;
a successful trial call at time 10 (timeout elapsed). -/
theorem C2_circuit_breaker_witness :
    (1 ≤ 2 ∧ ([0, 1] : List Int).length = 2) ∧
    ((failCalls { failure_threshold := 2, recovery_timeout := 5 } [0, 1]).state
        = .OPEN ∧
     (∀ t, (failCalls { failure_threshold := 2, recovery_timeout := 5 }
         [0, 1]).last_failure_time = some t →
       (let cb := failCalls { failure_threshold := 2, recovery_timeout := 5 } [0, 1]
        ((10 : Int) - t < 5 →
          cb.call 10 (Except.ok ()) = (cb, .circuitOpen, false)) ∧
        ((5 : Int) ≤ 10 - t →
          cb.call 10 (Except.ok ()) =
            ({ cb with state := .HALF_OPEN }).call 10 (Except.ok ()) ∧
          (cb.call 10 (Except.ok ())).2.2 = true ∧
          (∀ a, (Except.ok () : Except String Unit) = .ok a →
            (cb.call 10 (Except.ok ())).1.state = .CLOSED ∧
            (cb.call 10 (Except.ok ())).1.failure_count = 0) ∧
          (∀ e, (Except.ok () : Except String Unit) = .error e →
            (cb.call 10 (Except.ok ())).1.state = .OPEN ∧
            (cb.call 10 (Except.ok ())).1.last_failure_time = some 10))))) :=
  ⟨⟨by decide, by decide⟩,
   C2_circuit_breaker 2 5 [0, 1] 10 (Except.ok ()) (by decide) (by decide)⟩

/-- C5: while the breaker is `OPEN` and the recovery timeout has not elapsed,
the rejected call leaves every field of the breaker unchanged — in particular
`failure_count` is not incremented and `last_failure_time` is not modified —
and the underlying function is not invoked. -/
theorem C5_rejection_frame (cb : CircuitBreaker) (now t : Int)
    (f : Except String Unit)
    (hs : cb.state = .OPEN)
    (hl : cb.last_failure_time = some t)
    (hlt : now - t < cb.recovery_timeout) :
    cb.call now f = (cb, .circuitOpen, false) := by
  simp [CircuitBreaker.call, should_attempt_reset, hs, hl, not_le.mpr hlt]

/-- C5, witness: a breaker opened at time 100 with a 300-second timeout
rejects a call at time 150 without any state change. -/
theorem C5_rejection_frame_witness :
    (({ failure_threshold := 3, recovery_timeout := 300, failure_count := 3,
        last_failure_time := some 100, state := .OPEN } : CircuitBreaker).state
      = .OPEN) ∧
    ((150 : Int) - 100 < 300) ∧
    ({ failure_threshold := 3, recovery_timeout := 300, failure_count := 3,
       last_failure_time := some 100, state := .OPEN } : CircuitBreaker).call 150
        (Except.ok ()) =
      ({ failure_threshold := 3, recovery_timeout := 300, failure_count := 3,
         last_failure_time := some 100, state := .OPEN }, .circuitOpen, false) :=
  ⟨rfl, by decide,
   C5_rejection_frame _ 150 100 (Except.ok ()) rfl rfl (by decide)⟩

/-- Helper: every single transition preserves `retry_count ≤ max_retries`
(the retry step is guarded by `can_retry`, as the send task invokes it). -/
theorem applyOp_retry_le (n : Notification) (op : Op)
    (h : n.retry_count ≤ n.max_retries) :
    (applyOp n op).retry_count ≤ (applyOp n op).max_retries := by
  cases op with
  | enqueue => simpa [applyOp] using h
  | markSent now => simpa [applyOp, mark_as_sent] using h
  | markDelivered now => simpa [applyOp, mark_as_delivered] using h
  | markFailed e => simpa [applyOp, mark_as_failed] using h
  | taskRetry =>
    by_cases hc : can_retry n = true
    · have hlt : n.retry_count < n.max_retries := by
        simp [can_retry] at hc
        exact hc.1
      simp [applyOp, hc, increment_retry]
      omega
    · simp only [applyOp, Bool.not_eq_true] at hc ⊢
      rw [hc]
      simpa using h

/-- Helper: the invariant holds after any sequence of transitions. -/
theorem runOps_retry_le (ops : List Op) :
    ∀ n : Notification, n.retry_count ≤ n.max_retries →
      (runOps n ops).retry_count ≤ (runOps n ops).max_retries := by
  induction ops with
  | nil => intro n h; simpa [runOps] using h
  | cons op ops ih =>
    intro n h
    simpa [runOps, List.foldl] using ih (applyOp n op) (applyOp_retry_le n op h)

/-- Helper: a successfully created notification starts with `retry_count = 0`
and the model default `max_retries = 3`. -/
theorem create_notification_counts (templates : List TemplateRec) (registry : Registry)
    (tname recipient : String) (customer order : Option Nat) (ctx : Ctx)
    (priority : String) (now : Int) (sched : Option Int) (n : Notification)
    (h : create_notification templates registry tname recipient customer order
        ctx priority now sched = some n) :
    n.retry_count = 0 ∧ n.max_retries = 3 := by
  simp only [create_notification] at h
  split at h
  · exact absurd h (by simp)
  · split at h
    · exact absurd h (by simp)
    · split at h
      · exact absurd h (by simp)
      · simp only [Option.some.injEq] at h
        subst h
        exact ⟨rfl, rfl⟩

/-- C3: for a notification created by the dispatch service, after any sequence
of the defined transitions — with the retry increment invoked as the send task
does, only behind a true `can_retry()` — the invariant
`retry_count ≤ max_retries` holds; and `can_retry` returns true iff the status
is `failed` and `retry_count < max_retries`. -/
theorem C3_retry_invariant (templates : List TemplateRec) (registry : Registry)
    (tname recipient : String) (customer order : Option Nat) (ctx : Ctx)
    (priority : String) (now : Int) (sched : Option Int) (n : Notification)
    (hcreate : create_notification templates registry tname recipient customer
        order ctx priority now sched = some n)
    (ops : List Op) :
    (runOps n ops).retry_count ≤ (runOps n ops).max_retries ∧
    (∀ m : Notification,
        can_retry m = true ↔ (m.status = .failed ∧ m.retry_count < m.max_retries)) := by
  obtain ⟨h0, h3⟩ := create_notification_counts templates registry tname recipient
    customer order ctx priority now sched n hcreate
  refine ⟨runOps_retry_le ops n (by omega), fun m => ?_⟩
  simp only [can_retry, Bool.and_eq_true, decide_eq_true_eq]
  tauto

/-- C3, witness: a concrete creation through the service followed by a
failure and a guarded retry. -/
theorem C3_retry_invariant_witness :
    create_notification [tplW] regW "welcome" "123" none none [] "normal" 0 none
      = some { template_name := "welcome", recipient := "123", subject := "",
               message := "Hi", status := .pending, priority := "normal",
               context_data := [], retry_count := 0, max_retries := 3,
               scheduled_at := 0, customer := none, order := none } ∧
    ((runOps { template_name := "welcome", recipient := "123", subject := "",
               message := "Hi", status := .pending, priority := "normal",
               context_data := [], retry_count := 0, max_retries := 3,
               scheduled_at := 0, customer := none, order := none }
        [.markFailed (some "boom"), .taskRetry]).retry_count ≤
      (runOps { template_name := "welcome", recipient := "123", subject := "",
                message := "Hi", status := .pending, priority := "normal",
                context_data := [], retry_count := 0, max_retries := 3,
                scheduled_at := 0, customer := none, order := none }
        [.markFailed (some "boom"), .taskRetry]).max_retries ∧
     (∀ m : Notification,
        can_retry m = true ↔ (m.status = .failed ∧ m.retry_count < m.max_retries))) :=
  ⟨by decide,
   C3_retry_invariant [tplW] regW "welcome" "123" none none [] "normal" 0 none
     _ (by decide) [.markFailed (some "boom"), .taskRetry]⟩

/-- C9: when a send attempt fails and retries remain, the task increments the
retry count, the status becomes `retrying`, and the retry is scheduled with a
countdown of exactly `60 * 2 ^ retry_count` seconds where `retry_count` is the
value as it stands when the countdown is computed (after the increment);
when retries are exhausted nothing is rescheduled and the status remains
`failed` with the retry count unchanged. -/
theorem C9_backoff (n : Notification) (err : String) :
    (n.retry_count < n.max_retries →
      (send_task_on_failure n err).1.retry_count = n.retry_count + 1 ∧
      (send_task_on_failure n err).1.status = .retrying ∧
      (send_task_on_failure n err).2 =
        some (60 * 2 ^ (send_task_on_failure n err).1.retry_count)) ∧
    (n.max_retries ≤ n.retry_count →
      (send_task_on_failure n err).2 = none ∧
      (send_task_on_failure n err).1.status = .failed ∧
      (send_task_on_failure n err).1.retry_count = n.retry_count) := by
  constructor
  · intro hlt
    have hc : can_retry (mark_as_failed (some err) n) = true := by
      simp [can_retry, mark_as_failed]
      omega
    simp only [send_task_on_failure, hc, if_true]
    simp [increment_retry, mark_as_failed]
  · intro hge
    have hc : can_retry (mark_as_failed (some err) n) = false := by
      simp [can_retry, mark_as_failed]
      omega
    simp only [send_task_on_failure, hc, Bool.false_eq_true, if_false]
    simp [mark_as_failed]

/-- C9, witness: a fresh notification (0 of 3 retries used) is rescheduled
with countdown `60 * 2 ^ 1 = 120`; an exhausted one (3 of 3) is not. -/
theorem C9_backoff_witness :
    ((0 : Nat) < 3 ∧
      ((send_task_on_failure {} "boom").1.retry_count = 0 + 1 ∧
       (send_task_on_failure {} "boom").1.status = .retrying ∧
       (send_task_on_failure {} "boom").2 =
         some (60 * 2 ^ (send_task_on_failure {} "boom").1.retry_count))) ∧
    ((3 : Nat) ≤ 3 ∧
      ((send_task_on_failure { retry_count := 3 } "boom").2 = none ∧
       (send_task_on_failure { retry_count := 3 } "boom").1.status = .failed ∧
       (send_task_on_failure { retry_count := 3 } "boom").1.retry_count = 3)) :=
  ⟨⟨by decide, (C9_backoff {} "boom").1 (by decide)⟩,
   ⟨by decide, (C9_backoff { retry_count := 3 } "boom").2 (by decide)⟩⟩

/-- C8, counterexample: the recipient `"-abc"` starts with a minus sign but is
not followed by digits, so under the claim's characterization it is invalid;
the code's `validate_recipient` nevertheless accepts it, because the final
disjunct checks only `recipient.startswith('-')`. -/
theorem C8_counterexample :
    telegram_validate_recipient "" "-abc" = true ∧
    specTelegramValid false "-abc" = false := by
  decide

/-- C8, amended: the chat-bot channel accepts exactly: a non-empty all-digit
recipient, any recipient beginning with a minus sign (the remainder is not
checked to be numeric), or an `@` followed by at least one character; an empty
recipient is accepted iff a default chat id is configured. -/
theorem C8_amended (d r : String) :
    telegram_validate_recipient d r = true ↔
      ((r = "" ∧ ¬ d = "") ∨
       (¬ r = "" ∧ ∀ c ∈ r.data, c.isDigit = true) ∨
       (∃ rest, r.data = '-' :: rest) ∨
       (∃ rest, r.data = '@' :: rest ∧ rest ≠ [])) := by
  by_cases hr : r = ""
  · subst hr
    have h0 : ("" : String).data = [] := rfl
    simp [telegram_validate_recipient, h0]
  · have hd : r.data ≠ [] := fun h => hr (Eq.symm (String.ext h.symm))
    obtain ⟨c, rest, hcr⟩ : ∃ c rest, r.data = c :: rest := by
      cases h : r.data with
      | nil => exact absurd h hd
      | cons c rest => exact ⟨c, rest, rfl⟩
    have hA : headIs '@' r = true ↔ c = '@' := by simp [headIs, hcr]
    have hC : headIs '-' r = true ↔ c = '-' := by simp [headIs, hcr]
    have hB : pyIsdigit r = true ↔ ∀ ch ∈ r.data, ch.isDigit = true := by
      simp [pyIsdigit, hcr]
    have hlen : r.data.length > 1 ↔ rest ≠ [] := by
      rw [hcr]; cases rest <;> simp
    simp only [telegram_validate_recipient, if_neg hr, Bool.or_eq_true,
      Bool.and_eq_true, decide_eq_true_eq]
    rw [hA, hB, hC, hlen]
    constructor
    · rintro ((⟨hat, hne⟩ | hdig) | hminus)
      · exact Or.inr (Or.inr (Or.inr ⟨rest, by rw [hcr, hat], hne⟩))
      · exact Or.inr (Or.inl ⟨hr, hdig⟩)
      · exact Or.inr (Or.inr (Or.inl ⟨rest, by rw [hcr, hminus]⟩))
    · rintro (⟨habs, -⟩ | ⟨-, hdig⟩ | ⟨rest', hrest⟩ | ⟨rest', hrest, hne⟩)
      · exact absurd habs hr
      · exact Or.inl (Or.inr hdig)
      · rw [hcr] at hrest
        simp only [List.cons.injEq] at hrest
        exact Or.inr hrest.1
      · rw [hcr] at hrest
        simp only [List.cons.injEq] at hrest
        exact Or.inl (Or.inl ⟨hrest.1, hrest.2 ▸ hne⟩)

/-- C6, counterexample: a log row older than the 30-day window whose owning
notification is in status `failed` (not `delivered`) is nevertheless deleted
by the cleanup sweep — the second delete filters on `created_at` alone. The
store holds one failed notification (id 1) and one old log owned by it; after
the sweep the notification survives but its log is gone. -/
theorem C6_counterexample :
    (cleanup_old_notifications (30 * 86400 + 1)
        { notifications := [(1, { status := .failed })],
          logs := [{ notification := 1, created_at := 0 }] }).1.notifications
      = [(1, { status := .failed })] ∧
    ({ status := .failed } : Notification).status ≠ .delivered ∧
    (0 : Int) < (30 * 86400 + 1) - 30 * 86400 ∧
    (cleanup_old_notifications (30 * 86400 + 1)
        { notifications := [(1, { status := .failed })],
          logs := [{ notification := 1, created_at := 0 }] }).1.logs = [] ∧
    (cleanup_old_notifications (30 * 86400 + 1)
        { notifications := [(1, { status := .failed })],
          logs := [{ notification := 1, created_at := 0 }] }).2.2 = 1 := by
  decide

/-- C6, amended: the sweep deletes exactly the `delivered` notifications whose
`delivered_at` is older than the 30-day cutoff, cascades away their logs, and
additionally deletes every remaining log older than the cutoff regardless of
its notification's status; the returned notification count includes the
cascaded log rows (Django `delete()` totals), and the log count is the number
of old logs that survived the cascade. -/
theorem C6_amended (now : Int) (s : Store) :
    (∀ p : Nat × Notification,
        p ∈ (cleanup_old_notifications now s).1.notifications ↔
          (p ∈ s.notifications ∧ doomedNotif (now - 30 * 86400) p.2 = false)) ∧
    (∀ l : LogRec,
        l ∈ (cleanup_old_notifications now s).1.logs ↔
          (l ∈ s.logs ∧
           l.notification ∉ (s.notifications.filter
              (fun p => doomedNotif (now - 30 * 86400) p.2)).map (·.1) ∧
           now - 30 * 86400 ≤ l.created_at)) ∧
    (cleanup_old_notifications now s).2.1 =
      (s.notifications.filter (fun p => doomedNotif (now - 30 * 86400) p.2)).length +
        (s.logs.filter (fun l => decide (l.notification ∈ (s.notifications.filter
            (fun p => doomedNotif (now - 30 * 86400) p.2)).map (·.1)))).length ∧
    (cleanup_old_notifications now s).2.2 =
      (s.logs.filter (fun l =>
          decide (l.created_at < now - 30 * 86400) &&
            !(decide (l.notification ∈ (s.notifications.filter
              (fun p => doomedNotif (now - 30 * 86400) p.2)).map (·.1))))).length := by
  refine ⟨?_, ?_, ?_, ?_⟩
  · intro p
    simp [cleanup_old_notifications, List.mem_filter]
  · intro l
    simp only [cleanup_old_notifications, List.mem_filter, Bool.and_eq_true,
      Bool.not_eq_true', decide_eq_false_iff_not, not_lt]
    tauto
  · simp [cleanup_old_notifications]
  · simp only [cleanup_old_notifications, List.filter_filter]

/-- Helper: looking up a key in an appended association list tries the first
list, then the second. -/
theorem lookup_append {β : Type} (l1 l2 : List (String × β)) (k : String) :
    (l1 ++ l2).lookup k = (l1.lookup k).or (l2.lookup k) := by
  induction l1 with
  | nil => simp [List.lookup]
  | cons p l1 ih =>
    simp only [List.cons_append, List.lookup]
    cases h : (k == p.1) <;> simp [h, ih, Option.or]

/-- C7: `send_bulk_notifications` returns exactly the successfully created
notifications, one `create_notification` attempt per recipient entry on the
merged context (so failed entries are skipped without aborting the batch);
context merge resolves per-recipient keys first — a key bound per recipient
wins over the global binding, and a key unbound per recipient falls back to
the global context; and on the concrete fixture batch of 5 recipients with 1
invalid address, 4 notifications are created. -/
theorem C7_send_bulk (templates : List TemplateRec) (registry : Registry)
    (tname : String) (recipients : List RecipientData) (gctx : Ctx)
    (priority : String) (now : Int) :
    send_bulk_notifications templates registry tname recipients gctx priority now =
      recipients.filterMap (fun rd =>
        create_notification templates registry tname rd.recipient rd.customer
          rd.order (mergeCtx gctx rd.context) priority now none) ∧
    (∀ (g rctx : Ctx) (k : String),
        (∀ v, rctx.lookup k = some v → (mergeCtx g rctx).lookup k = some v) ∧
        (rctx.lookup k = none → (mergeCtx g rctx).lookup k = g.lookup k)) ∧
    (send_bulk_notifications templates registry tname recipients gctx priority now).length
      ≤ recipients.length ∧
    recipientsW.length = 5 ∧
    (send_bulk_notifications [tplW] regW "welcome" recipientsW [] "normal" 0).length = 4 := by
  have hmain : ∀ (rs : List RecipientData) (acc : List Notification),
      rs.foldl (fun acc rd =>
        match create_notification templates registry tname rd.recipient rd.customer
            rd.order (mergeCtx gctx rd.context) priority now none with
        | some n => acc ++ [n]
        | none => acc) acc
        = acc ++ rs.filterMap (fun rd =>
            create_notification templates registry tname rd.recipient rd.customer
              rd.order (mergeCtx gctx rd.context) priority now none) := by
    intro rs
    induction rs with
    | nil => intro acc; simp
    | cons rd rs ih =>
      intro acc
      simp only [List.foldl_cons, List.filterMap_cons]
      cases hfa : create_notification templates registry tname rd.recipient
          rd.customer rd.order (mergeCtx gctx rd.context) priority now none with
      | none => simp [hfa, ih acc]
      | some b => simp [hfa, ih (acc ++ [b])]
  have heq : send_bulk_notifications templates registry tname recipients gctx priority now =
      recipients.filterMap (fun rd =>
        create_notification templates registry tname rd.recipient rd.customer
          rd.order (mergeCtx gctx rd.context) priority now none) :=
    (hmain recipients []).trans (List.nil_append _)
  refine ⟨heq, ?_, ?_, by decide, by decide⟩
  · intro g rctx k
    have hl : (mergeCtx g rctx).lookup k = (rctx.lookup k).or (g.lookup k) :=
      lookup_append rctx g k
    constructor
    · intro v hv
      rw [hl, hv]
      rfl
    · intro hnone
      rw [hl, hnone]
      rfl
  · rw [heq]
    exact List.length_filterMap_le _ _

/-- Helper: a successful association-list lookup pairs the key with a value
that is a member of the list. -/
theorem lookup_mem {β : Type} (ctx : List (String × β)) (v : String) (s : β) :
    ctx.lookup v = some s → (v, s) ∈ ctx := by
  induction ctx with
  | nil => intro h; simp [List.lookup] at h
  | cons p ctx ih =>
    intro h
    simp only [List.lookup] at h
    cases hk : (v == p.1) with
    | true =>
      rw [hk] at h
      simp only [Option.some.injEq] at h
      have hv : v = p.1 := eq_of_beq hk
      have hps : (v, s) = p := by rw [hv, ← h]
      rw [hps]
      exact List.mem_cons_self _ _
    | false =>
      rw [hk] at h
      exact List.mem_cons_of_mem _ (ih h)

/-- Helper: every literal segment produced by the template lexer is a
non-brace character (braces occur only as tag delimiters, which either parse
into a variable segment or fail the whole parse). -/
theorem lexTF_lit_braceFree : ∀ (fuel : Nat) (l : List Char) (segs : List Seg),
    lexTF fuel l = some segs →
    ∀ c, Seg.lit c ∈ segs → ¬ c = '\x7b' ∧ ¬ c = '\x7d' := by
  intro fuel
  induction fuel with
  | zero => intro l segs h; simp [lexTF] at h
  | succ fuel ih =>
    intro l segs h c hc
    cases l with
    | nil =>
      simp only [lexTF, Option.some.injEq] at h
      subst h
      simp at hc
    | cons a rest =>
      simp only [lexTF] at h
      by_cases ha : a = '\x7b'
      · rw [if_pos ha] at h
        cases hot : openTag rest with
        | none => rw [hot] at h; simp at h
        | some pr =>
          obtain ⟨n, rest3⟩ := pr
          rw [hot] at h
          have h' : (lexTF fuel rest3).map (Seg.var n :: ·) = some segs := h
          cases hx : lexTF fuel rest3 with
          | none => rw [hx] at h'; simp at h'
          | some segs' =>
            rw [hx] at h'
            simp only [Option.map_some'] at h'
            rcases h' with h'
            injection h' with h'
            subst h'
            rcases List.mem_cons.mp hc with hlit | hlit
            · exact absurd hlit (by simp)
            · exact ih rest3 segs' hx c hlit
      · rw [if_neg ha] at h
        by_cases ha2 : a = '\x7d'
        · rw [if_pos ha2] at h
          simp at h
        · rw [if_neg ha2] at h
          cases hx : lexTF fuel rest with
          | none => rw [hx] at h; simp at h
          | some segs' =>
            rw [hx] at h
            simp only [Option.map_some'] at h
            rcases h with h
            injection h with h
            subst h
            rcases List.mem_cons.mp hc with hlit | hlit
            · have hca : c = a := by simpa using hlit
              subst hca
              exact ⟨ha, ha2⟩
            · exact ih rest segs' hx c hlit

/-- Helper: rendering brace-free literal segments against a context whose
values are brace-free yields brace-free output — a missing variable
contributes the empty text. -/
theorem renderSegs_braceFree (ctx : Ctx)
    (hctx : ∀ p ∈ ctx, braceFreeL p.2.data) :
    ∀ segs : List Seg,
      (∀ c, Seg.lit c ∈ segs → ¬ c = '\x7b' ∧ ¬ c = '\x7d') →
      braceFreeL (renderSegs ctx segs) := by
  intro segs
  induction segs with
  | nil => intro _ c hc; simp [renderSegs] at hc
  | cons s segs ih =>
    intro hlit
    cases s with
    | lit c0 =>
      intro c hc
      simp only [renderSegs, List.mem_cons] at hc
      rcases hc with hc | hc
      · subst hc
        exact hlit c (List.mem_cons_self _ _)
      · exact ih (fun c' hc' => hlit c' (List.mem_cons_of_mem _ hc')) c hc
    | var v =>
      intro c hc
      simp only [renderSegs, List.mem_append] at hc
      rcases hc with hc | hc
      · unfold resolveVar at hc
        cases hlk : ctx.lookup v with
        | none =>
          rw [hlk] at hc
          exact absurd hc (by simp [show ("" : String).data = [] from rfl])
        | some s' =>
          rw [hlk] at hc
          exact hctx (v, s') (lookup_mem ctx v s' hlk) c hc
      · exact ih (fun c' hc' => hlit c' (List.mem_cons_of_mem _ hc')) c hc

/-- C4: spec-modelled rendering robustness. For every template string and
context: `_render_template` either returns the compiled-and-substituted output
or degrades to the original unrendered template string (it never raises — it
is a total function whose error branch is exactly that fallback); a variable
missing from the context resolves to empty text; and whenever compilation
succeeds, the rendered output of a context with brace-free values contains no
brace characters at all — in particular no unresolved placeholder markers. -/
theorem C4_render_tolerant (t : String) (ctx : Ctx) :
    (render_template t ctx = t ∨
      ∃ segs, lexT t.data = some segs ∧
        render_template t ctx = String.mk (renderSegs ctx segs)) ∧
    (∀ v, ctx.lookup v = none → resolveVar ctx v = "") ∧
    (∀ segs, lexT t.data = some segs →
      (∀ p ∈ ctx, braceFreeL p.2.data) →
      braceFreeL (String.mk (renderSegs ctx segs)).data) := by
  refine ⟨?_, ?_, ?_⟩
  · by_cases h0 : t = ""
    · subst h0
      left
      simp [render_template]
    · unfold render_template engineRender
      rw [if_neg h0]
      cases hx : lexT t.data with
      | none => left; rfl
      | some segs => right; exact ⟨segs, rfl, rfl⟩
  · intro v h
    unfold resolveVar
    rw [h]
  · intro segs hseg hctx
    have hseg' : lexTF (t.data.length + 1) t.data = some segs := hseg
    exact renderSegs_braceFree ctx hctx segs
      (lexTF_lit_braceFree (t.data.length + 1) t.data segs hseg')

/-- C4, witness: the template `Hi \x7b\x7b name \x7d\x7d!` rendered against a
context that lacks `name` produces `Hi !` — the missing variable became empty
text and no placeholder marker remains. -/
theorem C4_render_tolerant_witness :
    ([("other", "x")] : Ctx).lookup "name" = none ∧
    resolveVar [("other", "x")] "name" = "" ∧
    lexT ("Hi \x7b\x7b name \x7d\x7d!".data) =
      some [Seg.lit 'H', Seg.lit 'i', Seg.lit ' ', Seg.var "name", Seg.lit '!'] ∧
    render_template "Hi \x7b\x7b name \x7d\x7d!" [("other", "x")] = "Hi !" ∧
    (∀ p ∈ ([("other", "x")] : Ctx), braceFreeL p.2.data) ∧
    braceFreeL (String.mk (renderSegs [("other", "x")]
      [Seg.lit 'H', Seg.lit 'i', Seg.lit ' ', Seg.var "name", Seg.lit '!'])).data :=
  ⟨by decide,
   (C4_render_tolerant "Hi \x7b\x7b name \x7d\x7d!" [("other", "x")]).2.1 "name" (by decide),
   by decide,
   by decide,
   by decide,
   (C4_render_tolerant "Hi \x7b\x7b name \x7d\x7d!" [("other", "x")]).2.2
     [Seg.lit 'H', Seg.lit 'i', Seg.lit ' ', Seg.var "name", Seg.lit '!']
     (by decide) (by decide)⟩

end NotifSys
